import Mathlib

/-!
Verification development for the jax2tf conversion engine
(`jax/experimental/jax2tf/jax2tf.py`): a shallow embedding of the
interpreter's data model and of the converter functions that the checked
properties are about, followed by theorems settling those properties.

Conventions of the embedding:
* TensorFlow tensor values (`TfVal`) are modelled by opaque identifiers
  (`Nat`) allocated from a monotone counter in the graph state, so that
  "the same backend constant object" is expressible as equality of
  identifiers.
* Python `dict`s keyed by object identity are association lists keyed by
  the object-id component of the modelled Python object.
* `try/finally` blocks are modelled by functions that apply the
  `finally` state update unconditionally to the state produced by the
  body, with the body's outcome (normal result or raised exception)
  reified as `Except`.
-/

namespace Jax2Tf

/-- TensorFlow element types that occur in the converter's per-dtype
identity computations (`_get_max_identity` / `_get_min_identity`):
the inexact (floating) dtypes including `bfloat16`, the integer dtypes,
and `bool`. -/
inductive TfDtype
  | bfloat16
  | float16
  | float32
  | float64
  | int8
  | int16
  | int32
  | int64
  | uint8
  | uint16
  | uint32
  | uint64
  | boolean
  deriving DecidableEq

/-- `dtypes.issubdtype(numpy_tf_dtype, np.inexact)` for the modelled dtypes
(NumPy does not know `bfloat16`, which the source special-cases with
`tf_dtype == tf.bfloat16`; `isInexactOrBfloat16` below accounts for both). -/
def TfDtype.isInexact : TfDtype → Bool
  | .float16 => true
  | .float32 => true
  | .float64 => true
  | _ => false

/-- The test `tf_dtype == tf.bfloat16 or dtypes.issubdtype(numpy_tf_dtype, np.inexact)`
from `_get_max_identity` / `_get_min_identity`. -/
def TfDtype.isInexactOrBfloat16 : TfDtype → Bool
  | .bfloat16 => true
  | d => d.isInexact

/-- `dtypes.issubdtype(numpy_tf_dtype, np.integer)`. -/
def TfDtype.isInteger : TfDtype → Bool
  | .int8 => true
  | .int16 => true
  | .int32 => true
  | .int64 => true
  | .uint8 => true
  | .uint16 => true
  | .uint32 => true
  | .uint64 => true
  | _ => false

/-- `dtypes.issubdtype(numpy_tf_dtype, np.bool_)`. -/
def TfDtype.isBool : TfDtype → Bool
  | .boolean => true
  | _ => false

/-- `dtypes.iinfo(numpy_tf_dtype).min` for the integer dtypes. -/
def iinfoMin : TfDtype → Int
  | .int8 => -128
  | .int16 => -32768
  | .int32 => -2147483648
  | .int64 => -9223372036854775808
  | _ => 0

/-- `dtypes.iinfo(numpy_tf_dtype).max` for the integer dtypes. -/
def iinfoMax : TfDtype → Int
  | .int8 => 127
  | .int16 => 32767
  | .int32 => 2147483647
  | .int64 => 9223372036854775807
  | .uint8 => 255
  | .uint16 => 65535
  | .uint32 => 4294967295
  | .uint64 => 18446744073709551615
  | _ => 0

/-- The identity (initial) value computed per dtype by the specialized
windowed-reduction converters: a floating infinity of the right sign, an
extreme representable integer, or a boolean. -/
inductive ReductionIdentity
  | negInf
  | posInf
  | intVal (v : Int)
  | boolVal (b : Bool)
  deriving DecidableEq

/-- Embedding of `_get_max_identity` (jax2tf.py:2163-2172): `-inf` for
`bfloat16` and the inexact dtypes, `iinfo(...).min` for the integer
dtypes, and `False` for `bool` (the remaining case, guarded by an
assertion in the source). -/
def getMaxIdentity (d : TfDtype) : ReductionIdentity :=
  if d.isInexactOrBfloat16 then ReductionIdentity.negInf
  else if d.isInteger then ReductionIdentity.intVal (iinfoMin d)
  else ReductionIdentity.boolVal false

/-- Embedding of `_get_min_identity` (jax2tf.py:2175-2184): `inf` for
`bfloat16` and the inexact dtypes, `iinfo(...).max` for the integer
dtypes, and `True` for `bool`. -/
def getMinIdentity (d : TfDtype) : ReductionIdentity :=
  if d.isInexactOrBfloat16 then ReductionIdentity.posInf
  else if d.isInteger then ReductionIdentity.intVal (iinfoMax d)
  else ReductionIdentity.boolVal true

/-- The two specialized windowed reductions registered at
jax2tf.py:2191-2200: `reduce_window_min_p` and `reduce_window_max_p`. -/
inductive ReduceWindowKind
  | rwMin
  | rwMax
  deriving DecidableEq

/-- The identity function each specialized windowed-reduction converter is
registered with (jax2tf.py:2191-2200): `reduce_window_min_p` is paired with
`_get_min_identity` and `reduce_window_max_p` with `_get_max_identity`. -/
def reduceWindowIdentity : ReduceWindowKind → TfDtype → ReductionIdentity
  | .rwMin => getMinIdentity
  | .rwMax => getMaxIdentity

/-- A converter closure built by `_cond` (jax2tf.py:2626-2632):
`partial(_interpret_jaxpr, jaxpr, *operands, extra_name_stack=...)` is
determined by the captured branch jaxpr, the captured operands, and the
index used in the `branch_i_fun` name-stack suffix. -/
structure BranchClosure (J O : Type) where
  jaxpr : J
  operands : O
  nameStackIndex : Nat
  deriving DecidableEq

/-- Embedding of the list comprehension in `_cond` (jax2tf.py:2626-2632)
that builds `branches_tf`.  The source comprehension has TWO `for`
clauses (`for jaxpr in branches` followed by `for i, jaxpr in
enumerate(branches)`), so for each element of `branches` it emits one
closure per enumerated branch, the inner binding shadowing the outer. -/
def condBranchesTf {J O : Type} (branches : List J) (operands : O) :
    List (BranchClosure J O) :=
  branches.flatMap (fun _jaxpr =>
    branches.enum.map (fun p => BranchClosure.mk p.2 operands p.1))

/-- Embedding of `tf.switch_case` as consumed by `_cond`: the backend
selects the closure at the selector index from the received list. -/
def switchCase {B : Type} (index : Nat) (branchesTf : List B) : Option B :=
  branchesTf.get? index

/-- Embedding of `_cond` (jax2tf.py:2622-2633): build `branches_tf`,
then hand it to the backend's native multi-way branch primitive. -/
def condConverter {J O : Type} (index : Nat) (operands : O)
    (branches : List J) : Option (BranchClosure J O) :=
  switchCase index (condBranchesTf branches operands)

/-- A JAX primitive as a registry key: the dispatch registries are keyed
by primitive identity and the lookup-failure message prints the
primitive, so only its name is needed here. -/
structure PrimitiveKey where
  name : String
  deriving DecidableEq

/-- Embedding of `TensorFlowTrace.get_primitive_impl` (jax2tf.py:926-936):
`tf_impl` is consulted first (value-only converters, second component
`false`), then `tf_impl_with_avals` (metadata-aware converters, second
component `true`); if both lookups miss, the result is the
`NotImplementedError` whose message names the primitive. -/
def getPrimitiveImpl {I : Type} (tf_impl tf_impl_with_avals : PrimitiveKey → Option I)
    (p : PrimitiveKey) : Except String (I × Bool) :=
  match tf_impl p with
  | some impl => Except.ok (impl, false)
  | none =>
    match tf_impl_with_avals p with
    | some impl => Except.ok (impl, true)
    | none =>
      Except.error ("TensorFlow interpretation rule for '" ++ p.name
        ++ "' not implemented")

/-- Embedding of the re-entrancy guard at the top of
`convert.converted_fun` (jax2tf.py:254-259): raise `ValueError` exactly
when the trace state is not clean and the `inside_call_tf` flag is not
set; otherwise proceed. -/
def convertedFunReentrancyGuard (traceStateClean insideCallTf : Bool)
    (traceStackRepr : String) : Except String Unit :=
  if !traceStateClean && !insideCallTf then
    Except.error ("convert must be used outside all JAX transformations."
      ++ "Trace state: " ++ traceStackRepr)
  else Except.ok ()

/-- A Python object usable as a constant-cache key: `oid` models `id(val)`
(object identity) and `payload` the object's value. -/
structure ConstObj where
  oid : Nat
  payload : Int
  deriving DecidableEq

/-- The per-conversion constant-deduplication cache
(`_thread_local_state.constant_cache`): a mapping from
`(id(val), jax_dtype)` to the pair `(val, tf_val)` — the original key
object is stored alongside the materialized tensor precisely to keep a
strong reference to it (jax2tf.py:612-616).  Materialized tensors are
graph-node identifiers (`Nat`). -/
abbrev ConstantCache := List ((Nat × TfDtype) × (ConstObj × Nat))

/-- Embedding of the thread-local conversion state `_ThreadLocalState`
(jax2tf.py:131-155) with exactly the fields the source declares. -/
structure ThreadLocalState where
  name_stack : String
  enable_xla : Bool
  inside_call_tf : Bool
  shape_env : List (String × Nat)
  include_xla_op_metadata : Bool
  constant_cache : Option ConstantCache
  deriving DecidableEq

/-- The part of the TensorFlow graph-building state the embedding needs: a
monotone counter allocating fresh graph-node identifiers, so that two
calls of `tf.convert_to_tensor` yield distinguishable constants. -/
structure TfGraphState where
  next_const_id : Nat
  deriving DecidableEq

/-- The combined state threaded through the embedded converter: the
thread-local conversion state plus the backend graph state. -/
structure ConvState where
  tls : ThreadLocalState
  graph : TfGraphState
  deriving DecidableEq

/-- Embedding of the constant branch of `_tfval_to_tensor_jax_dtype`
(jax2tf.py:606-629): compute `const_key = (id(val), jax_dtype)`; when
memoizing and a cache is installed, look the key up; on a miss,
materialize a fresh backend constant (`tf.convert_to_tensor`) and, when
memoizing with a cache installed, store `(val, tf_val)` under the key.
Returns `((tf_val, jax_dtype), new state)`. -/
def tfvalToTensorConst (val : ConstObj) (jax_dtype : TfDtype)
    (memoize_constants : Bool) (s : ConvState) :
    (Nat × TfDtype) × ConvState :=
  let const_key := (val.oid, jax_dtype)
  let cached : Option Nat :=
    if memoize_constants then
      match s.tls.constant_cache with
      | some cache => (cache.lookup const_key).map Prod.snd
      | none => none
    else none
  match cached with
  | some tf_val => ((tf_val, jax_dtype), s)
  | none =>
    let tf_val := s.graph.next_const_id
    let graph' : TfGraphState := ⟨tf_val + 1⟩
    let tls' :=
      if memoize_constants then
        match s.tls.constant_cache with
        | some cache =>
          { s.tls with
            constant_cache := some (cache ++ [(const_key, (val, tf_val))]) }
        | none => s.tls
      else s.tls
    ((tf_val, jax_dtype), ⟨tls', graph'⟩)

/-- `util.extend_name_stack(stack, name)`: appends the name and a
separator. -/
def extendNameStack (stack name : String) : String :=
  stack ++ name ++ "/"

/-- Embedding of the `_extended_name_stack` context manager
(jax2tf.py:455-467): save the previous name stack, install the extended
one for the body, and restore the previous one in `finally` — on the
normal and on the exceptional exit alike. -/
def extendedNameStackScope {A : Type} (extra_name_stack : Option String)
    (body : ConvState → A × ConvState) (s : ConvState) : A × ConvState :=
  let prev_name_stack := s.tls.name_stack
  let installed :=
    match extra_name_stack with
    | some extra =>
      if prev_name_stack = "" then extra
      else extendNameStack prev_name_stack extra
    | none => prev_name_stack
  let step := body { s with tls := { s.tls with name_stack := installed } }
  (step.1, { step.2 with tls := { step.2.tls with name_stack := prev_name_stack } })

/-- Embedding of the cache scoping of `_interpret_fun`
(jax2tf.py:470-491): save the previous constant cache, install a fresh
empty one, run the body under the extended name stack, and restore the
previous cache in `finally` on every exit path.  The body's outcome is
an `Except` so the exceptional exit is covered. -/
def interpretFunScope {A E : Type} (extra_name_stack : Option String)
    (body : ConvState → Except E A × ConvState) (s : ConvState) :
    Except E A × ConvState :=
  let prev_constant_cache := s.tls.constant_cache
  let step := extendedNameStackScope extra_name_stack body
    { s with tls := { s.tls with constant_cache := some [] } }
  (step.1,
   { step.2 with tls := { step.2.tls with constant_cache := prev_constant_cache } })

/-- Embedding of the `try/finally` block of `convert.converted_fun`
(jax2tf.py:391-431): assert the shape environment is empty, save
`enable_xla` and `include_xla_op_metadata`, install the call's
`enable_xla`, unconditionally set `include_xla_op_metadata` to `False`,
install the solved shape environment, run the conversion body, and in
`finally` clear the shape environment and restore the two saved flags.
When the entry assertion fires, the exception propagates and the
`finally` block stops at its first statement (the two saved names are
unbound there), so only the shape environment is cleared. -/
def convertScoped {A : Type} (enable_xla : Bool)
    (shapeenv : List (String × Nat))
    (body : ConvState → Except String A × ConvState) (s : ConvState) :
    Except String A × ConvState :=
  if s.tls.shape_env ≠ [] then
    (Except.error "Unexpected shape environment",
     { s with tls := { s.tls with shape_env := [] } })
  else
    let prev_enable_xla := s.tls.enable_xla
    let prev_include_xla_op_metadata := s.tls.include_xla_op_metadata
    let step := body
      { s with tls := { s.tls with
          enable_xla := enable_xla,
          include_xla_op_metadata := false,
          shape_env := shapeenv } }
    (step.1,
     { step.2 with tls := { step.2.tls with
         shape_env := [],
         enable_xla := prev_enable_xla,
         include_xla_op_metadata := prev_include_xla_op_metadata } })

/-- A TF operation emitted by one primitive dispatch, recording whether
the `include_xla_op_metadata` branch of
`TensorFlowTrace.process_primitive` (jax2tf.py:821-836) attached XLA op
metadata to it. -/
structure EmittedOp where
  prim : String
  op_metadata_attached : Bool
  deriving DecidableEq

/-- A primitive dispatch as seen by the metadata branch of
`process_primitive`: the primitive's name and the constants the dispatch
materializes through `_tfval_to_tensor_jax_dtype` (the only
thread-local-state effect a dispatch performs). -/
structure DispatchSpec where
  prim : String
  consts : List (ConstObj × TfDtype)
  deriving DecidableEq

/-- Embedding of one `process_primitive` dispatch restricted to its
thread-local-state interactions (jax2tf.py:799-857): the emitted op
carries metadata exactly when `include_xla_op_metadata` is set at
dispatch time, and tracer boxing materializes constants through
`_tfval_to_tensor_jax_dtype(..., memoize_constants=True)`. -/
def processPrimitiveEmit (d : DispatchSpec) (s : ConvState) :
    EmittedOp × ConvState :=
  let attach := s.tls.include_xla_op_metadata
  let s' := d.consts.foldl
    (fun st c => (tfvalToTensorConst c.1 c.2 true st).2) s
  (⟨d.prim, attach⟩, s')

/-- Sequential interpretation of a trace: each primitive application is
dispatched in order through `processPrimitiveEmit`, threading the
conversion state. -/
def runDispatches : List DispatchSpec → ConvState → List EmittedOp × ConvState
  | [], s => ([], s)
  | d :: ds, s =>
    let step := processPrimitiveEmit d s
    let rest := runDispatches ds step.2
    (step.1 :: rest.1, rest.2)

/-- A conversion started through the public `convert` entry point: the
`converted_fun` scoping (jax2tf.py:391-431) around `_interpret_fun`
(jax2tf.py:470-491) around the sequential dispatch of the traced
primitives.  Returns the ops the conversion emitted (none if the entry
assertion fired). -/
def convertRunOps (dispatches : List DispatchSpec) (enable_xla : Bool)
    (shapeenv : List (String × Nat)) (name_stack : Option String)
    (s : ConvState) : List EmittedOp :=
  let run := convertScoped enable_xla shapeenv
    (fun s1 => interpretFunScope name_stack
      (fun s2 =>
        let step := runDispatches dispatches s2
        (Except.ok step.1, step.2)) s1) s
  match run.1 with
  | Except.ok ops => ops
  | Except.error _ => []

/-- A JAX abstract value `core.ShapedArray`: shape, dtype, and the
weak-type flag. -/
structure ShapedArray where
  shape : List Nat
  dtype : TfDtype
  weak_type : Bool
  deriving DecidableEq

/-- `ShapedArray.strip_weak_type`: the same abstract value with
`weak_type` cleared. -/
def ShapedArray.stripWeakType (a : ShapedArray) : ShapedArray :=
  { a with weak_type := false }

/-- The result of `primitive.abstract_eval`: a single abstract value for
single-result primitives, a list for `multiple_results` primitives. -/
inductive AbstractOut
  | single (a : ShapedArray)
  | multiple (as : List ShapedArray)
  deriving DecidableEq

/-- The raw value(s) returned by a converter `impl`: a single TF value or
a list, mirroring the two boxing branches of `process_primitive`. -/
inductive ValOut
  | single (v : Nat)
  | multiple (vs : List Nat)
  deriving DecidableEq

/-- A `TensorFlowTracer` as far as the dispatch validation is concerned:
the boxed TF value and the abstract value stored unchanged by the
constructor (jax2tf.py:702-740). -/
structure TFTracer where
  val : Nat
  aval : ShapedArray
  deriving DecidableEq

/-- The list of abstract values denoted by an `abstract_eval` result. -/
def AbstractOut.toList : AbstractOut → List ShapedArray
  | .single a => [a]
  | .multiple as => as

/-- The converter's raw results and the independently computed abstract
values must agree in kind with `primitive.multiple_results` (and, for
multiple results, `zip` pairs them one-to-one); this is the implicit
well-typedness the Python code relies on when it zips or directly boxes
them. -/
def dispatchWellTyped (multiple_results : Bool) (vo : ValOut)
    (ao : AbstractOut) : Prop :=
  match multiple_results, vo, ao with
  | true, .multiple vs, .multiple as => vs.length = as.length
  | false, .single _, .single _ => True
  | _, _, _ => False

/-- Embedding of the boxing and validation part of
`TensorFlowTrace.process_primitive` (jax2tf.py:799-857): compute
`out_aval = primitive.abstract_eval(*args_avals)`, invoke the converter
on the raw values, box each result with its abstract value, and — when
`config.jax_enable_checks` is set — assert that each produced tracer's
abstract value matches the computed one (comparing
`strip_weak_type`-normalized values in the `multiple_results` branch and
the values directly in the single-result branch); an assertion failure
is a fatal error, not retried. -/
def processPrimitiveCheck (jax_enable_checks : Bool)
    (multiple_results : Bool)
    (abstract_eval : List ShapedArray → AbstractOut)
    (impl : List Nat → ValOut)
    (tracers : List TFTracer) : Except String (List TFTracer) :=
  let args_avals := tracers.map TFTracer.aval
  let out_aval := abstract_eval args_avals
  let val_out := impl (tracers.map TFTracer.val)
  match multiple_results, val_out, out_aval with
  | true, ValOut.multiple vs, AbstractOut.multiple as =>
    let out := (vs.zip as).map (fun p => TFTracer.mk p.1 p.2)
    if jax_enable_checks then
      if (out.zip as).all
          (fun p => p.1.aval.stripWeakType == p.2.stripWeakType) then
        Except.ok out
      else Except.error "assertion failed: out.aval differs from expected"
    else Except.ok out
  | false, ValOut.single v, AbstractOut.single a =>
    let out := [TFTracer.mk v a]
    if jax_enable_checks then
      if (TFTracer.mk v a).aval == a then Except.ok out
      else Except.error "assertion failed: out.aval differs from expected"
    else Except.ok out
  | _, _, _ => Except.error "inconsistent multiple_results"

/-- Embedding of `_xla_disabled_error` (jax2tf.py:162-168): asserts the
XLA path is disabled and builds the error whose message names the
primitive, with an optional explanatory suffix.  `none` models the
assertion firing. -/
def xlaDisabledError (enable_xla : Bool) (primitive_name : String)
    (extra_msg : Option String) : Option String :=
  if enable_xla then none
  else
    let msg := "Call to " ++ primitive_name
      ++ " cannot be converted with enable_xla=False."
    match extra_msg with
    | some extra => some (msg ++ " " ++ extra)
    | none => some msg

/-- The fixed suffix of every `_try_tf_conv` error (jax2tf.py:1458-1461). -/
def convErrorSuffix : String :=
  "See source code for the precise conditions under which convolutions can be converted without XLA."

/-- The `error(msg)` helper of `_try_tf_conv` (jax2tf.py:1458-1461):
an `_xla_disabled_error` for `conv_general_dilated` with the message and
the fixed suffix.  It is only called on the disabled path, where the
assertion inside `_xla_disabled_error` cannot fire. -/
def tryTfConvError (msg : String) : String :=
  "Call to conv_general_dilated cannot be converted with enable_xla=False."
    ++ " " ++ (msg ++ " - " ++ convErrorSuffix)

/-- A TF dtype's printed name, as interpolated into the unsupported-dtype
message of `_try_tf_conv`. -/
def TfDtype.printedName : TfDtype → String
  | .bfloat16 => "bfloat16"
  | .float16 => "float16"
  | .float32 => "float32"
  | .float64 => "float64"
  | .int8 => "int8"
  | .int16 => "int16"
  | .int32 => "int32"
  | .int64 => "int64"
  | .uint8 => "uint8"
  | .uint16 => "uint16"
  | .uint32 => "uint32"
  | .uint64 => "uint64"
  | .boolean => "bool"

/-- Embedding of the argument-validation prefix of `_try_tf_conv`
(jax2tf.py:1454-1484): the chain of structural checks performed, in
source order, before any padding or dimension-number conversion is
attempted.  `ok` means control proceeds to the padding conversion. -/
def tryTfConvChecks (lhs_dtype : TfDtype)
    (feature_group_count batch_group_count : Nat) (lhs_rank : Nat)
    (window_strides : List Nat)
    (preferred_element_type : Option TfDtype) : Except String Unit :=
  if !(lhs_dtype ∈ [TfDtype.float16, TfDtype.float32, TfDtype.float64]) then
    Except.error (tryTfConvError
      ("tf.nn.convolution is not supported for dtype " ++ lhs_dtype.printedName))
  else if feature_group_count ≠ 1 then
    Except.error (tryTfConvError
      "tf.nn.convolution does not support grouped convolutions")
  else if batch_group_count ≠ 1 then
    Except.error (tryTfConvError
      "Unimplemented support for batch_group_count != 1")
  else if lhs_rank - 2 < 1 ∨ lhs_rank - 2 > 3 then
    Except.error (tryTfConvError
      "TensorFlow can only handle convolutions with 1, 2, or 3 spatial dimensions")
  else if window_strides ≠ List.replicate (lhs_rank - 2) 1 then
    Except.error (tryTfConvError "Unimplemented support for window_strides")
  else
    match preferred_element_type with
    | some pet =>
      if pet ≠ lhs_dtype then
        Except.error (tryTfConvError
          "Unimplemented support for preferred_element_type")
      else Except.ok ()
    | none => Except.ok ()

/-- Embedding of the path split at the top of `_conv_general_dilated`
(jax2tf.py:1586-1591): with `enable_xla` unset the conversion is routed
through `_try_tf_conv` (its validation prefix modelled by
`tryTfConvChecks`); with it set the native `XlaConv` path is taken. -/
inductive ConvPath
  | tfConv
  | xlaConv
  deriving DecidableEq

/-- `_conv_general_dilated` restricted to its path selection and to the
validation prefix of the non-XLA path. -/
def convGeneralDilated (enable_xla : Bool) (lhs_dtype : TfDtype)
    (feature_group_count batch_group_count : Nat) (lhs_rank : Nat)
    (window_strides : List Nat)
    (preferred_element_type : Option TfDtype) : Except String ConvPath :=
  if !enable_xla then
    (tryTfConvChecks lhs_dtype feature_group_count batch_group_count
      lhs_rank window_strides preferred_element_type).map
      (fun _ => ConvPath.tfConv)
  else Except.ok ConvPath.xlaConv

/-- Three-way `zipWith`, the shape of an elementwise `tf.where` applied
across the lane axis to the flag vector, the candidate carry and the
previous carry. -/
def zipWith3 {A B C D : Type} (f : A → B → C → D) :
    List A → List B → List C → List D
  | x :: xs, y :: ys, z :: zs => f x y z :: zipWith3 f xs ys zs
  | _, _, _ => []

/-- `select_one_carry` from `_batched_cond_while` (jax2tf.py:2697-2704)
viewed along the lane axis: `tf.where(pred_b_bcast, new_c, c)` keeps the
candidate value for the lanes whose previous continuation flag is still
set and the previous value for the lanes that already terminated.  The
embedding fixes the lane axis as the list dimension; the broadcast of
`pred_b` to each carried value's full shape makes the selection uniform
within a lane, so one lane's carried values are collapsed into one
element of type `A`. -/
def selectOneCarry {A : Type} (pred_b : List Bool) (new_c c : List A) :
    List A :=
  zipWith3 (fun p n o => if p then n else o) pred_b new_c c

/-- The augmented loop state of the batched while-loop rewrite: the
per-lane boolean continuation flags prepended to the per-lane carry
(jax2tf.py:2673-2679). -/
structure BatchedWhileState (A : Type) where
  pred_b : List Bool
  carry : List A
  deriving DecidableEq

/-- `new_cond_tf_func` from `_batched_cond_while` (jax2tf.py:2688-2690):
the scalar loop-termination test is `tf.reduce_any` over the per-lane
flags — loop while any lane still runs. -/
def newCondTfFunc {A : Type} (s : BatchedWhileState A) : Bool :=
  s.pred_b.any id

/-- `new_body_tf_func` from `_batched_cond_while` (jax2tf.py:2692-2709)
along the lane axis, for a lane-wise body and condition (the batched
loops this rewrite receives come from vectorization, whose body and
condition act independently per lane): run the body on every lane,
select per lane between candidate and previous carry using the
*previous* flags, then recompute the flags on the selected carry. -/
def newBodyTfFunc {A : Type} (cond : A → Bool) (body : A → A)
    (s : BatchedWhileState A) : BatchedWhileState A :=
  let new_carry := s.carry.map body
  let selected_carry := selectOneCarry s.pred_b new_carry s.carry
  let next_pred_b := selected_carry.map cond
  ⟨next_pred_b, selected_carry⟩

/-- The state of the rewritten loop after `k` iterations: the initial
state seeds the flags with the pre-loop evaluation of the batched
condition on the initial carry (`init_pred_b`, jax2tf.py:2683-2686), and
every iteration applies `new_body_tf_func` to all lanes in lockstep. -/
def batchedCondWhileIter {A : Type} (cond : A → Bool) (body : A → A)
    (init_carry : List A) : Nat → BatchedWhileState A
  | 0 => ⟨init_carry.map cond, init_carry⟩
  | k + 1 => newBodyTfFunc cond body (batchedCondWhileIter cond body init_carry k)

/-- The dispatch test of `_while` (jax2tf.py:2643-2650): the batched
rewrite is taken exactly when the condition's result has a non-empty
shape (`cond_jaxpr.out_avals[0].shape`). -/
def whileUsesBatchedRewrite (cond_out_shape : List Nat) : Bool :=
  cond_out_shape ≠ []

/-- Witness fixture: a lane of the scenario loop carries its counter and
its per-lane trip bound. -/
def wLaneCond : Nat × Nat → Bool := fun p => decide (p.1 < p.2)

/-- Witness fixture: the scenario body increments the counter. -/
def wLaneBody : Nat × Nat → Nat × Nat := fun p => (p.1 + 1, p.2)

/-- Witness fixture: two lanes with trip counts 2 and 4 starting from
carry 0. -/
def wLaneInit : List (Nat × Nat) := [(0, 2), (0, 4)]

/-- Witness fixture: a value-only registry implementing just `add`. -/
def wTfImpl : PrimitiveKey → Option Nat :=
  fun p => if p.name = "add" then some 1 else none

/-- Witness fixture: a metadata-aware registry implementing just `conv`. -/
def wTfImplWithAvals : PrimitiveKey → Option Nat :=
  fun p => if p.name = "conv" then some 2 else none

/-- Witness fixture: an abstract-evaluation rule producing one shaped
result. -/
def wAbstractEval : List ShapedArray → AbstractOut :=
  fun _ => AbstractOut.multiple [⟨[2], TfDtype.float32, true⟩]

/-- Witness fixture: a converter producing one raw TF value. -/
def wImplRule : List Nat → ValOut :=
  fun _ => ValOut.multiple [7]

/-- Witness fixture: a conversion state with an installed empty constant
cache. -/
def wState : ConvState :=
  ⟨⟨"", true, false, [], true, some []⟩, ⟨0⟩⟩

/-- Witness fixture: a Python constant object. -/
def wVal : ConstObj := ⟨5, 7⟩

/-- Counterexample fixture: the process state before a top-level
conversion — no constant cache installed (`constant_cache = None`
outside a conversion scope, jax2tf.py:154) and an empty shape
environment. -/
def wConvStart : ConvState := ⟨⟨"", true, false, [], true, none⟩, ⟨0⟩⟩

/-- Counterexample fixture: one top-level conversion that materializes
the same constant object at the same dtype twice — once in the root
interpretation scope and once inside a nested interpretation scope, the
kind `_interpret_jaxpr` creates for every control-flow sub-computation
(cond branches, while bodies, reducers; jax2tf.py:548-556 via
jax2tf.py:470-491) — and returns the two backend constants obtained. -/
def wNestedConversion : Except String (Nat × Nat) :=
  (convertScoped true []
    (fun s0 => interpretFunScope none
      (fun s1 =>
        let first := tfvalToTensorConst wVal TfDtype.float32 true s1
        let second := interpretFunScope none
          (fun st =>
            let r := tfvalToTensorConst wVal TfDtype.float32 true st
            ((Except.ok r.1.1 : Except String Nat), r.2))
          first.2
        ((second.1.map (fun sid => (first.1.1, sid)) : Except String (Nat × Nat)),
         second.2))
      s0)
    wConvStart).1

/-! ## Theorems -/

/-- C2 (counterexample): as stated, the claim assigns `false` to the
boolean "min" windowed reduction and `true` to the boolean "max" one; on
the code the boolean identity of `reduce_window_min` is `True`
(`_get_min_identity`) and that of `reduce_window_max` is `False`
(`_get_max_identity`), so the claim fails at the boolean dtype. -/
theorem reduce_window_bool_identity_counterexample :
    reduceWindowIdentity ReduceWindowKind.rwMin TfDtype.boolean
        = ReductionIdentity.boolVal true
    ∧ reduceWindowIdentity ReduceWindowKind.rwMax TfDtype.boolean
        = ReductionIdentity.boolVal false
    ∧ ¬ (reduceWindowIdentity ReduceWindowKind.rwMin TfDtype.boolean
           = ReductionIdentity.boolVal false
         ∧ reduceWindowIdentity ReduceWindowKind.rwMax TfDtype.boolean
           = ReductionIdentity.boolVal true) := by
  decide

/-- C2 (amended): for the specialized windowed-reduction converters the
per-dtype identity of the reduction is a negative-infinity-equivalent
for a running maximum over floating dtypes, the dtype's minimum
representable integer for integer dtypes, `true` for the boolean "min"
reduction, and `false` for the boolean "max" reduction. -/
theorem reduce_window_identity_per_dtype (d : TfDtype) :
    (d.isInexactOrBfloat16 = true →
      reduceWindowIdentity ReduceWindowKind.rwMax d = ReductionIdentity.negInf)
    ∧ (d.isInteger = true →
      reduceWindowIdentity ReduceWindowKind.rwMax d
        = ReductionIdentity.intVal (iinfoMin d))
    ∧ (d.isBool = true →
      reduceWindowIdentity ReduceWindowKind.rwMin d
          = ReductionIdentity.boolVal true
      ∧ reduceWindowIdentity ReduceWindowKind.rwMax d
          = ReductionIdentity.boolVal false) := by
  cases d <;>
    simp [reduceWindowIdentity, getMaxIdentity, getMinIdentity,
      TfDtype.isInexactOrBfloat16, TfDtype.isInexact, TfDtype.isInteger,
      TfDtype.isBool, iinfoMin]

/-- Witness for the amended C2 theorem at concrete dtypes. -/
theorem reduce_window_identity_per_dtype_witness :
    reduceWindowIdentity ReduceWindowKind.rwMax TfDtype.float32
        = ReductionIdentity.negInf
    ∧ reduceWindowIdentity ReduceWindowKind.rwMax TfDtype.int32
        = ReductionIdentity.intVal (-2147483648)
    ∧ reduceWindowIdentity ReduceWindowKind.rwMin TfDtype.boolean
        = ReductionIdentity.boolVal true :=
  ⟨(reduce_window_identity_per_dtype TfDtype.float32).1 (by decide),
   (reduce_window_identity_per_dtype TfDtype.int32).2.1 (by decide),
   ((reduce_window_identity_per_dtype TfDtype.boolean).2.2 (by decide)).1⟩

/-- C4 (code evaluated at the failing input): with the two branches
`[10, 20]`, the comprehension in `_cond` builds FOUR closures — the full
enumerated branch list repeated once per branch — instead of the two the
claim states: its two `for` clauses multiply the branch list by its own
length.  Selector values inside range still reach the conversion of the
matching branch, but the backend receives `N * N` closures, not `N`. -/
theorem cond_branches_duplicated :
    (condBranchesTf [10, 20] ()).length = 4
    ∧ ([10, 20] : List Nat).length = 2
    ∧ condBranchesTf [10, 20] ()
        = [⟨10, (), 0⟩, ⟨20, (), 1⟩, ⟨10, (), 0⟩, ⟨20, (), 1⟩]
    ∧ condConverter 1 () [10, 20] = some ⟨20, (), 1⟩ := by
  decide

/-- C5: dispatch lookup consults the value-only registry `tf_impl`
first, the metadata-aware registry `tf_impl_with_avals` second, and when
the primitive is registered in neither the lookup fails with the
unsupported-operation error whose message names the primitive; there is
no other fallback. -/
theorem get_primitive_impl_lookup_order {I : Type}
    (tf_impl tf_impl_with_avals : PrimitiveKey → Option I) (p : PrimitiveKey) :
    (∀ f, tf_impl p = some f →
      getPrimitiveImpl tf_impl tf_impl_with_avals p = Except.ok (f, false))
    ∧ (tf_impl p = none → ∀ f, tf_impl_with_avals p = some f →
      getPrimitiveImpl tf_impl tf_impl_with_avals p = Except.ok (f, true))
    ∧ (tf_impl p = none → tf_impl_with_avals p = none →
      getPrimitiveImpl tf_impl tf_impl_with_avals p
        = Except.error ("TensorFlow interpretation rule for '" ++ p.name
            ++ "' not implemented")) := by
  refine ⟨?_, ?_, ?_⟩
  · intro f hf
    unfold getPrimitiveImpl
    rw [hf]
  · intro h1 f hf
    unfold getPrimitiveImpl
    rw [h1, hf]
  · intro h1 h2
    unfold getPrimitiveImpl
    rw [h1, h2]

/-- Witness for the C5 theorem on concrete registries: a primitive only
in `tf_impl`, one only in `tf_impl_with_avals`, one in neither. -/
theorem get_primitive_impl_lookup_order_witness :
    getPrimitiveImpl wTfImpl wTfImplWithAvals ⟨"add"⟩ = Except.ok (1, false)
    ∧ getPrimitiveImpl wTfImpl wTfImplWithAvals ⟨"conv"⟩ = Except.ok (2, true)
    ∧ getPrimitiveImpl wTfImpl wTfImplWithAvals ⟨"sort"⟩
        = Except.error ("TensorFlow interpretation rule for '" ++ "sort"
            ++ "' not implemented") :=
  ⟨(get_primitive_impl_lookup_order wTfImpl wTfImplWithAvals ⟨"add"⟩).1 1 (by decide),
   (get_primitive_impl_lookup_order wTfImpl wTfImplWithAvals ⟨"conv"⟩).2.1
     (by decide) 2 (by decide),
   (get_primitive_impl_lookup_order wTfImpl wTfImplWithAvals ⟨"sort"⟩).2.2
     (by decide) (by decide)⟩

/-- C7: the entry-point guard raises exactly when the trace state is not
clean and the `inside_call_tf` flag is not set; with the flag set the
nested conversion proceeds. -/
theorem convert_reentrancy_guard_iff (clean inside : Bool) (tsr : String) :
    ((∃ msg, convertedFunReentrancyGuard clean inside tsr = Except.error msg)
       ↔ (clean = false ∧ inside = false))
    ∧ (inside = true →
        convertedFunReentrancyGuard clean inside tsr = Except.ok ()) := by
  cases clean <;> cases inside <;>
    simp [convertedFunReentrancyGuard]

/-- Witness for the C7 theorem: with the `inside_call_tf` flag set the
guard lets an unclean-trace conversion proceed. -/
theorem convert_reentrancy_guard_witness :
    convertedFunReentrancyGuard false true "stack" = Except.ok ()
    ∧ (∃ msg, convertedFunReentrancyGuard false false "stack"
        = Except.error msg) :=
  ⟨(convert_reentrancy_guard_iff false true "stack").2 rfl,
   (convert_reentrancy_guard_iff false false "stack").1.mpr ⟨rfl, rfl⟩⟩

/-- C6: with the XLA path disabled, converting a grouped convolution
(`feature_group_count != 1`, on an otherwise TF-supported dtype) raises
the dedicated disabled-path error whose message names the primitive
(`conv_general_dilated`) and the specific unsupported configuration
(grouped convolutions); no result is produced. -/
theorem conv_grouped_disabled_path_error (enable_xla : Bool)
    (lhs_dtype : TfDtype) (fgc bgc lhs_rank : Nat) (ws : List Nat)
    (pet : Option TfDtype)
    (hx : enable_xla = false)
    (hd : lhs_dtype ∈ [TfDtype.float16, TfDtype.float32, TfDtype.float64])
    (hg : fgc ≠ 1) :
    convGeneralDilated enable_xla lhs_dtype fgc bgc lhs_rank ws pet
      = Except.error (tryTfConvError
          "tf.nn.convolution does not support grouped convolutions")
    ∧ tryTfConvError "tf.nn.convolution does not support grouped convolutions"
      = "Call to " ++ "conv_general_dilated"
        ++ " cannot be converted with enable_xla=False."
        ++ " " ++ ("tf.nn.convolution does not support grouped convolutions"
        ++ " - " ++ convErrorSuffix) := by
  subst hx
  refine ⟨?_, rfl⟩
  simp [convGeneralDilated, tryTfConvChecks, hd, hg, Except.map]

/-- Witness for the C6 theorem: a grouped `float32` convolution with
`feature_group_count = 2` on the disabled path. -/
theorem conv_grouped_disabled_path_error_witness :
    convGeneralDilated false TfDtype.float32 2 1 4 [1, 1] none
      = Except.error (tryTfConvError
          "tf.nn.convolution does not support grouped convolutions") :=
  (conv_grouped_disabled_path_error false TfDtype.float32 2 1 4 [1, 1] none
    rfl (by decide) (by decide)).1

/-- C9: every thread-local field set by a top-level conversion is
restored on every exit path, the body's outcome (normal `Except.ok` or
exceptional `Except.error`) being arbitrary: `convert`'s `finally`
restores `enable_xla` and `include_xla_op_metadata` to their pre-call
values and clears `shape_env`; `_extended_name_stack`'s `finally`
restores `name_stack` to its previous value; `_interpret_fun`'s
`finally` restores `constant_cache` to its previous value. -/
theorem thread_local_state_restored_on_exit (s : ConvState)
    (enable_xla : Bool) (shapeenv : List (String × Nat))
    (extra : Option String)
    (body : ConvState → Except String Unit × ConvState) :
    (convertScoped enable_xla shapeenv body s).2.tls.enable_xla
        = s.tls.enable_xla
    ∧ (convertScoped enable_xla shapeenv body s).2.tls.include_xla_op_metadata
        = s.tls.include_xla_op_metadata
    ∧ (convertScoped enable_xla shapeenv body s).2.tls.shape_env = []
    ∧ (extendedNameStackScope extra body s).2.tls.name_stack
        = s.tls.name_stack
    ∧ (interpretFunScope extra body s).2.tls.constant_cache
        = s.tls.constant_cache := by
  refine ⟨?_, ?_, ?_, rfl, rfl⟩ <;>
    · unfold convertScoped
      split <;> rfl

/-- Looking a key up after appending a binding for it to a map that did
not contain it yields that binding. -/
theorem lookup_append_of_lookup_eq_none {α β : Type} [BEq α] [LawfulBEq α]
    (c : List (α × β)) (k : α) (v : β) (h : c.lookup k = none) :
    (c ++ [(k, v)]).lookup k = some v := by
  induction c with
  | nil => simp [List.lookup]
  | cons e c ih =>
    rw [List.cons_append]
    rw [List.lookup] at h ⊢
    cases hk : k == e.1 with
    | true => rw [hk] at h; exact Option.noConfusion h
    | false => rw [hk] at h; exact ih h

/-- On a cache hit (`memoize_constants` set, a cache installed, the key
present), the constant branch of `_tfval_to_tensor_jax_dtype` returns
the cached tensor and leaves the state untouched. -/
theorem tfvalToTensorConst_hit (val : ConstObj) (dt : TfDtype)
    (s : ConvState) (c : ConstantCache) (p : ConstObj × Nat)
    (hc : s.tls.constant_cache = some c)
    (hl : c.lookup (val.oid, dt) = some p) :
    tfvalToTensorConst val dt true s = ((p.2, dt), s) := by
  simp only [tfvalToTensorConst, hc, hl, if_true, Option.map_some']

/-- On a cache miss, the constant branch of
`_tfval_to_tensor_jax_dtype` materializes a fresh backend constant and
stores the pair `(val, tf_val)` — retaining the original key object —
under `(id(val), jax_dtype)`. -/
theorem tfvalToTensorConst_miss (val : ConstObj) (dt : TfDtype)
    (s : ConvState) (c : ConstantCache)
    (hc : s.tls.constant_cache = some c)
    (hl : c.lookup (val.oid, dt) = none) :
    tfvalToTensorConst val dt true s
      = ((s.graph.next_const_id, dt),
         ⟨{ s.tls with
             constant_cache := some (c ++ [((val.oid, dt), (val, s.graph.next_const_id))]) },
          ⟨s.graph.next_const_id + 1⟩⟩) := by
  simp only [tfvalToTensorConst, hc, hl, if_true, Option.map_none']

/-- C8 (counterexample): within ONE top-level conversion, materializing
the identical constant object at the same target dtype a second time
does NOT always yield the same cached backend constant: the second
materialization here happens inside a nested interpretation scope of the
same conversion, `_interpret_fun` installs a fresh empty cache for that
scope (jax2tf.py:476-479, deliberately, to avoid sharing constants
across tf.function boundaries), and the lookup misses — the conversion
yields backend constant `0` for the first materialization and the
distinct fresh constant `1` for the second. -/
theorem constant_cache_nested_scope_counterexample :
    wNestedConversion = Except.ok (0, 1) ∧ (0 : Nat) ≠ 1 :=
  ⟨rfl, by decide⟩

/-- C8 (amended): the constant-deduplication cache is installed empty at
the start of each interpretation scope — in particular the top-level
conversion's root scope — and discarded (restored to the enclosing
value) at that scope's end whatever the body did, so it is never shared
across independent conversions; within one interpretation scope a second
materialization of the same constant object at the same dtype returns
the very same backend constant with no state change (nested scopes of
the same conversion install fresh caches, so the identity guarantee does
not cross tf.function boundaries), and the cache retains the original
key object alongside the materialized constant. -/
theorem constant_cache_lifecycle_and_idempotence (s : ConvState)
    (c : ConstantCache) (val : ConstObj) (dt : TfDtype)
    (extra : Option String)
    (hc : s.tls.constant_cache = some c) :
    ((interpretFunScope extra
        (fun st =>
          ((Except.ok st.tls.constant_cache : Except String (Option ConstantCache)),
           st)) s).1
      = Except.ok (some ([] : ConstantCache)))
    ∧ (∀ body : ConvState → Except String Unit × ConvState,
        (interpretFunScope extra body s).2.tls.constant_cache
          = s.tls.constant_cache)
    ∧ (tfvalToTensorConst val dt true ((tfvalToTensorConst val dt true s).2)
        = tfvalToTensorConst val dt true s)
    ∧ (c.lookup (val.oid, dt) = none →
        ((tfvalToTensorConst val dt true s).2).tls.constant_cache
          = some (c ++ [((val.oid, dt),
              (val, (tfvalToTensorConst val dt true s).1.1))])) := by
  refine ⟨rfl, fun body => rfl, ?_, ?_⟩
  · cases hl : c.lookup (val.oid, dt) with
    | some p =>
      rw [tfvalToTensorConst_hit val dt s c p hc hl]
      rw [tfvalToTensorConst_hit val dt s c p hc hl]
    | none =>
      rw [tfvalToTensorConst_miss val dt s c hc hl]
      exact tfvalToTensorConst_hit val dt _ _ (val, s.graph.next_const_id) rfl
        (lookup_append_of_lookup_eq_none c _ _ hl)
  · intro hl
    rw [tfvalToTensorConst_miss val dt s c hc hl]

/-- Witness for the C8 theorem on a concrete state: the second
materialization of the same constant object is the materialization state
already reached, and the cache holds the original object. -/
theorem constant_cache_lifecycle_witness :
    tfvalToTensorConst wVal TfDtype.float32 true
        ((tfvalToTensorConst wVal TfDtype.float32 true wState).2)
      = tfvalToTensorConst wVal TfDtype.float32 true wState
    ∧ ((tfvalToTensorConst wVal TfDtype.float32 true wState).2).tls.constant_cache
      = some [(((5 : Nat), TfDtype.float32), (wVal, 0))] :=
  ⟨(constant_cache_lifecycle_and_idempotence wState [] wVal TfDtype.float32
      none rfl).2.2.1,
   by
    rw [(constant_cache_lifecycle_and_idempotence wState [] wVal TfDtype.float32
      none rfl).2.2.2 rfl]
    rfl⟩

/-- Constant materialization never writes `include_xla_op_metadata`. -/
theorem tfvalToTensorConst_preserves_metadata_flag (val : ConstObj)
    (dt : TfDtype) (m : Bool) (s : ConvState) :
    ((tfvalToTensorConst val dt m s).2).tls.include_xla_op_metadata
      = s.tls.include_xla_op_metadata := by
  unfold tfvalToTensorConst
  cases m <;> cases hcc : s.tls.constant_cache <;>
    simp [hcc] <;> split <;> rfl

/-- A primitive dispatch never writes `include_xla_op_metadata`: its only
state effects go through constant materialization. -/
theorem processPrimitiveEmit_preserves_metadata_flag (d : DispatchSpec)
    (s : ConvState) :
    ((processPrimitiveEmit d s).2).tls.include_xla_op_metadata
      = s.tls.include_xla_op_metadata := by
  show ((d.consts.foldl
      (fun st c => (tfvalToTensorConst c.1 c.2 true st).2) s)).tls.include_xla_op_metadata
    = s.tls.include_xla_op_metadata
  induction d.consts generalizing s with
  | nil => rfl
  | cons c cs ih =>
    rw [List.foldl_cons, ih, tfvalToTensorConst_preserves_metadata_flag]

/-- Under a state whose `include_xla_op_metadata` flag is cleared, no op
emitted by the sequential dispatch loop carries XLA op metadata. -/
theorem runDispatches_all_no_metadata (ds : List DispatchSpec)
    (s : ConvState) (h : s.tls.include_xla_op_metadata = false) :
    ((runDispatches ds s).1).all (fun op => !op.op_metadata_attached) = true := by
  induction ds generalizing s with
  | nil => rfl
  | cons d ds ih =>
    have hfst : (processPrimitiveEmit d s).1.op_metadata_attached
        = s.tls.include_xla_op_metadata := rfl
    have h2 : ((processPrimitiveEmit d s).2).tls.include_xla_op_metadata = false := by
      rw [processPrimitiveEmit_preserves_metadata_flag]; exact h
    simp only [runDispatches, List.all_cons, hfst, h, Bool.not_false, Bool.true_and]
    exact ih _ h2

/-- C10: a conversion started through the public `convert` entry point
sets `include_xla_op_metadata` to `False` for its whole duration, so the
metadata-attaching branch of `process_primitive` is never taken: no op
emitted by the conversion has XLA op metadata attached, whatever the
flag's value outside the conversion. -/
theorem convert_no_xla_op_metadata (dispatches : List DispatchSpec)
    (enable_xla : Bool) (shapeenv : List (String × Nat))
    (ns : Option String) (s : ConvState) :
    (convertRunOps dispatches enable_xla shapeenv ns s).all
      (fun op => !op.op_metadata_attached) = true := by
  unfold convertRunOps convertScoped
  split
  · rfl
  · exact runDispatches_all_no_metadata dispatches _ rfl

/-- Boxing each raw result with its abstract value yields tracers whose
abstract values are exactly the computed ones. -/
theorem boxed_zip_avals (vs : List Nat) (as : List ShapedArray)
    (h : vs.length = as.length) :
    ((vs.zip as).map (fun p => TFTracer.mk p.1 p.2)).map TFTracer.aval = as := by
  induction vs generalizing as with
  | nil =>
    cases as with
    | nil => rfl
    | cons a as => exact absurd h (by simp)
  | cons v vs ih =>
    cases as with
    | nil => exact absurd h (by simp)
    | cons a as =>
      simp only [List.zip_cons_cons, List.map_cons]
      rw [ih as (by simpa using h)]

/-- The `jax_enable_checks` assertion of the `multiple_results` branch
passes on tracers boxed from the computed abstract values. -/
theorem boxed_zip_check_passes (vs : List Nat) (as : List ShapedArray)
    (h : vs.length = as.length) :
    ((((vs.zip as).map (fun p => TFTracer.mk p.1 p.2)).zip as).all
      (fun p => p.1.aval.stripWeakType == p.2.stripWeakType)) = true := by
  induction vs generalizing as with
  | nil => cases as <;> rfl
  | cons v vs ih =>
    cases as with
    | nil => rfl
    | cons a as =>
      simp only [List.zip_cons_cons, List.map_cons, List.all_cons]
      rw [ih as (by simpa using h)]
      simp

/-- C3: with `jax_enable_checks` enabled and a converter whose raw
results match the primitive's `multiple_results` arity, every dispatch
succeeds and every produced tracer's abstract value equals — after
`strip_weak_type` normalization — the value independently computed by
`primitive.abstract_eval` on the same inputs; the assertion guarding
this never needs a retry path: its failure branch is a fatal error. -/
theorem process_primitive_aval_validation (multiple_results : Bool)
    (abstract_eval : List ShapedArray → AbstractOut)
    (impl : List Nat → ValOut) (tracers : List TFTracer)
    (h : dispatchWellTyped multiple_results (impl (tracers.map TFTracer.val))
          (abstract_eval (tracers.map TFTracer.aval))) :
    ∃ outs,
      processPrimitiveCheck true multiple_results abstract_eval impl tracers
        = Except.ok outs
      ∧ outs.map (fun o => o.aval.stripWeakType)
          = ((abstract_eval (tracers.map TFTracer.aval)).toList).map
              ShapedArray.stripWeakType := by
  unfold processPrimitiveCheck
  unfold dispatchWellTyped at h
  cases hm : multiple_results <;>
    cases hv : impl (tracers.map TFTracer.val) <;>
    cases ha : abstract_eval (tracers.map TFTracer.aval) <;>
    rw [hm, hv, ha] at h <;> try exact absurd h not_false
  case false.single.single v a =>
    simp only [ha]
    exact ⟨[TFTracer.mk v a], by simp, by simp [AbstractOut.toList]⟩
  case true.multiple.multiple vs as =>
    simp only [ha]
    refine ⟨(vs.zip as).map (fun p => TFTracer.mk p.1 p.2), ?_, ?_⟩
    · simp [boxed_zip_check_passes vs as h]
    · have hb := boxed_zip_avals vs as h
      have hcomp : (fun (o : TFTracer) => o.aval.stripWeakType)
          = (ShapedArray.stripWeakType ∘ TFTracer.aval) := rfl
      rw [hcomp, ← List.map_map, hb]
      rfl

/-- Witness for the C3 theorem on a concrete dispatch. -/
theorem process_primitive_aval_validation_witness :
    ∃ outs,
      processPrimitiveCheck true true wAbstractEval wImplRule []
        = Except.ok outs
      ∧ outs.map (fun o => o.aval.stripWeakType)
          = ((wAbstractEval ([].map TFTracer.aval)).toList).map
              ShapedArray.stripWeakType :=
  process_primitive_aval_validation true wAbstractEval wImplRule [] rfl

/-- The element-wise selection of the batched while-loop body, on a lane
whose flag (computed as the condition of its current carry) is down,
returns that lane's previous carry. -/
theorem selectOneCarry_get?_false {A : Type} (cond : A → Bool)
    (body : A → A) (carry : List A) (i : Nat) (x : A)
    (hx : carry.get? i = some x) (hc : cond x = false) :
    (selectOneCarry (carry.map cond) (carry.map body) carry).get? i
      = some x := by
  induction carry generalizing i with
  | nil => cases i <;> exact Option.noConfusion hx
  | cons a t ih =>
    cases i with
    | zero =>
      have hax : a = x := Option.some.inj hx
      subst hax
      show some (if cond a then body a else a) = some a
      simp [hc]
    | succ n => exact ih n hx

/-- Loop invariant of the batched while-loop rewrite: at every iteration
the per-lane flags are exactly the batched condition evaluated on the
current carry (the rewrite seeds them that way before the loop and
recomputes them from the selected carry at the end of each body). -/
theorem batchedCondWhileIter_pred_inv {A : Type} (cond : A → Bool)
    (body : A → A) (init_carry : List A) (k : Nat) :
    (batchedCondWhileIter cond body init_carry k).pred_b
      = (batchedCondWhileIter cond body init_carry k).carry.map cond := by
  cases k <;> rfl

/-- One-step freeze: a lane whose flag is down keeps its carried value
through the next iteration and its flag stays down. -/
theorem batchedCondWhileIter_freeze_step {A : Type} (cond : A → Bool)
    (body : A → A) (init_carry : List A) (k i : Nat)
    (h : (batchedCondWhileIter cond body init_carry k).pred_b.get? i
          = some false) :
    (batchedCondWhileIter cond body init_carry (k + 1)).carry.get? i
        = (batchedCondWhileIter cond body init_carry k).carry.get? i
    ∧ (batchedCondWhileIter cond body init_carry (k + 1)).pred_b.get? i
        = some false := by
  have hinv := batchedCondWhileIter_pred_inv cond body init_carry k
  have hx : ((batchedCondWhileIter cond body init_carry k).carry.get? i).map cond
      = some false := by
    rw [← List.get?_map, ← hinv]
    exact h
  obtain ⟨x, hx1, hx2⟩ := Option.map_eq_some'.mp hx
  have hsel : (batchedCondWhileIter cond body init_carry (k + 1)).carry.get? i
      = some x := by
    show (selectOneCarry (batchedCondWhileIter cond body init_carry k).pred_b
        ((batchedCondWhileIter cond body init_carry k).carry.map body)
        (batchedCondWhileIter cond body init_carry k).carry).get? i = some x
    rw [hinv]
    exact selectOneCarry_get?_false cond body _ i x hx1 hx2
  refine ⟨hsel.trans hx1.symm, ?_⟩
  rw [batchedCondWhileIter_pred_inv cond body init_carry (k + 1), List.get?_map,
    hsel, Option.map_some', hx2]

/-- C1: in the batched while-loop rewrite, once lane `i`'s per-lane
condition is false at iteration `k`, every later iteration `k + m` keeps
lane `i`'s carried value equal to its value at iteration `k` and keeps
the lane's flag false, while all lanes continue to step in lockstep. -/
theorem batched_cond_while_freeze {A : Type} (cond : A → Bool)
    (body : A → A) (init_carry : List A) (k i : Nat)
    (h : (batchedCondWhileIter cond body init_carry k).pred_b.get? i
          = some false) :
    ∀ m,
      (batchedCondWhileIter cond body init_carry (k + m)).carry.get? i
          = (batchedCondWhileIter cond body init_carry k).carry.get? i
      ∧ (batchedCondWhileIter cond body init_carry (k + m)).pred_b.get? i
          = some false := by
  intro m
  induction m with
  | zero => exact ⟨rfl, h⟩
  | succ m ih =>
    have step := batchedCondWhileIter_freeze_step cond body init_carry
      (k + m) i ih.2
    exact ⟨step.1.trans ih.1, step.2⟩

/-- Witness for the C1 theorem on the two-lane scenario (trip counts 2
and 4): lane 0's flag is down after iteration 2, and its carry at
iteration `2 + 2` is its carry at iteration 2. -/
theorem batched_cond_while_freeze_witness :
    (batchedCondWhileIter wLaneCond wLaneBody wLaneInit 2).pred_b.get? 0
        = some false
    ∧ (batchedCondWhileIter wLaneCond wLaneBody wLaneInit (2 + 2)).carry.get? 0
        = (batchedCondWhileIter wLaneCond wLaneBody wLaneInit 2).carry.get? 0 :=
  have h : (batchedCondWhileIter wLaneCond wLaneBody wLaneInit 2).pred_b.get? 0
      = some false := by decide
  ⟨h, (batched_cond_while_freeze wLaneCond wLaneBody wLaneInit 2 0 h 2).1⟩

end Jax2Tf
